import Mathlib

/-
Verification of the dimmer control module (kasa/smartdimmer.py).

The module is a parameter-validating RPC shim: it reads a cached
device-info mapping (sys_info), validates brightness / transition
arguments, and issues remote calls on the service
"smartlife.iot.dimmer", or delegates to the generic plug collaborator
for instantaneous on / off.

Shallow embedding conventions:
  - Python numeric arguments are modelled by PyVal (an int or a float):
    the code distinguishes them with isinstance checks and uses their
    truthiness in "if transition:" tests.
  - sys_info is an association list from string keys to integers.
  - Exceptions are modelled by KasaError: notDimmable stands for
    SmartDeviceException "Device is not dimmable." (the spec calls this
    UnsupportedOperationError) and invalidArgument stands for ValueError
    (the spec calls this InvalidArgumentError).
  - Each operation is a function from a DeviceState (sys_info plus the
    log of outbound calls already made) to a result together with the
    new DeviceState; issuing a remote call appends to the log.
  - The model assumes update() has been awaited, i.e. the sys_info
    mapping exists, so the requires_update guard passes.
-/

namespace SmartDimmer

/-- A Python numeric argument: either an int or a float (the float
payload is modelled as a rational, which is enough to decide the
isinstance check and Python truthiness). -/
inductive PyVal where
  | int (n : Int)
  | float (q : Rat)
deriving DecidableEq, Repr

/-- Python truthiness of a numeric value: zero is falsy. -/
def pyTruthy : PyVal → Bool
  | .int n => n ≠ 0
  | .float q => q ≠ 0

/-- Truthiness of an optional argument: None is falsy, otherwise the
truthiness of the value ("if transition:" on a parameter defaulting to
None). -/
def optTruthy : Option PyVal → Bool
  | none => false
  | some v => pyTruthy v

/-- Errors raised by the module. notDimmable is the
SmartDeviceException "Device is not dimmable."; invalidArgument is the
ValueError raised by the type and range checks. -/
inductive KasaError where
  | notDimmable
  | invalidArgument
deriving DecidableEq, Repr

/-- One remote procedure call handed to the query-dispatch primitive
(_query_helper): target service, method name and parameter mapping. -/
structure RemoteCall where
  service : String
  method : String
  params : List (String × Int)
deriving DecidableEq, Repr

/-- An outbound action of the component: either a remote call through
_query_helper, or a delegation to the generic plug collaborator.
genericTurnOn and genericTurnOff are modelled from the spec: they stand
for SmartPlug.turn_on and SmartPlug.turn_off (code not under src/),
the generic instantaneous on / off of the device-base collaborator. -/
inductive Action where
  | remote (call : RemoteCall)
  | genericTurnOn
  | genericTurnOff
deriving DecidableEq, Repr

/-- The cached device-info mapping (sys_info): string keys to integer
values. -/
abbrev SysInfo : Type := List (String × Int)

/-- Lookup of a key in the sys_info mapping (Python dict membership and
subscription, first binding wins). -/
def lookupInfo : SysInfo → String → Option Int
  | [], _ => none
  | (k, v) :: rest, key => if k = key then some v else lookupInfo rest key

/-- Observable state of the device object: the cached sys_info mapping
and the log of outbound actions issued so far. -/
structure DeviceState where
  sysInfo : SysInfo
  callLog : List Action
deriving DecidableEq, Repr

/-- Append one outbound action to the call log. -/
def pushCall (s : DeviceState) (a : Action) : DeviceState :=
  { s with callLog := s.callLog ++ [a] }

/-- The DIMMER_SERVICE class constant. -/
def DIMMER_SERVICE : String := "smartlife.iot.dimmer"

/-- is_dimmable property: whether the cached sys_info contains the
key "brightness". -/
def is_dimmable (si : SysInfo) : Bool :=
  (lookupInfo si "brightness").isSome

/-- brightness property: raises notDimmable when the device is not
dimmable, otherwise returns the cached integer under "brightness".
(The source guards the subscription with the is_dimmable check, which
holds exactly when the lookup succeeds, so the two branches of the
match cover the source exactly.) -/
def brightness (si : SysInfo) : Except KasaError Int :=
  match lookupInfo si "brightness" with
  | none => .error .notDimmable
  | some b => .ok b

/-- set_dimmer_transition(brightness, transition): validates that
brightness is an int in [0, 100] and transition an int > 0 (in source
order: brightness type, brightness range, transition type, transition
range), then issues the set_dimmer_transition remote call. -/
def set_dimmer_transition (s : DeviceState) (b t : PyVal) :
    Except KasaError Unit × DeviceState :=
  match b with
  | .float _ => (.error .invalidArgument, s)
  | .int bi =>
    if ¬ (0 ≤ bi ∧ bi ≤ 100) then (.error .invalidArgument, s)
    else
      match t with
      | .float _ => (.error .invalidArgument, s)
      | .int ti =>
        if ti ≤ 0 then (.error .invalidArgument, s)
        else
          (.ok (), pushCall s (.remote ⟨DIMMER_SERVICE, "set_dimmer_transition",
            [("brightness", bi), ("duration", ti)]⟩))

/-- set_brightness(brightness, transition=None): raises notDimmable
when the device is not dimmable; validates that brightness is an int
with 0 < brightness <= 100; when the transition argument is truthy,
delegates to set_dimmer_transition, otherwise issues the
set_brightness remote call. -/
def set_brightness (s : DeviceState) (b : PyVal) (t : Option PyVal) :
    Except KasaError Unit × DeviceState :=
  if ¬ is_dimmable s.sysInfo then (.error .notDimmable, s)
  else
    match b with
    | .float _ => (.error .invalidArgument, s)
    | .int bi =>
      if ¬ (0 < bi ∧ bi ≤ 100) then (.error .invalidArgument, s)
      else
        match t with
        | some tv =>
          if pyTruthy tv then set_dimmer_transition s (.int bi) tv
          else
            (.ok (), pushCall s (.remote ⟨DIMMER_SERVICE, "set_brightness",
              [("brightness", bi)]⟩))
        | none =>
          (.ok (), pushCall s (.remote ⟨DIMMER_SERVICE, "set_brightness",
            [("brightness", bi)]⟩))

/-- turn_off(transition=None): a truthy transition ramps to brightness
0 via set_dimmer_transition, otherwise delegates to the generic
collaborator turn-off. -/
def turn_off (s : DeviceState) (t : Option PyVal) :
    Except KasaError Unit × DeviceState :=
  match t with
  | some tv =>
    if pyTruthy tv then set_dimmer_transition s (.int 0) tv
    else (.ok (), pushCall s .genericTurnOff)
  | none => (.ok (), pushCall s .genericTurnOff)

/-- turn_on(transition=None): a truthy transition ramps to the current
brightness via set_dimmer_transition (reading the brightness property,
whose notDimmable error propagates), otherwise delegates to the
generic collaborator turn-on. -/
def turn_on (s : DeviceState) (t : Option PyVal) :
    Except KasaError Unit × DeviceState :=
  match t with
  | some tv =>
    if pyTruthy tv then
      match brightness s.sysInfo with
      | .error e => (.error e, s)
      | .ok b => set_dimmer_transition s (.int b) tv
    else (.ok (), pushCall s .genericTurnOn)
  | none => (.ok (), pushCall s .genericTurnOn)

/-- state_information property: extends the generic state mapping with
the key "Brightness" mapped to the current brightness. The generic
part is modelled from the spec: SmartPlug.state_information (code not
under src/) supplies a state mapping independent of this component,
passed here as the parameter gen. -/
def state_information (gen : List (String × Int)) (s : DeviceState) :
    Except KasaError (List (String × Int)) × DeviceState :=
  match brightness s.sysInfo with
  | .error e => (.error e, s)
  | .ok b => (.ok (gen ++ [("Brightness", b)]), s)

/-- brightness property read as a state transformer: a pure read, the
state is unchanged. -/
def brightnessS (s : DeviceState) : Except KasaError Int × DeviceState :=
  (brightness s.sysInfo, s)

/-- is_dimmable property read as a state transformer: a pure read, the
state is unchanged. -/
def is_dimmableS (s : DeviceState) : Bool × DeviceState :=
  (is_dimmable s.sysInfo, s)

/-- A sample dimmable device state used in concrete evaluations:
sys_info holds brightness 70, no calls issued yet. -/
def sampleDimmable : DeviceState := ⟨[("brightness", 70)], []⟩

/-- A sample non-dimmable device state (a plain relay without the
brightness key), no calls issued yet. -/
def sampleNonDimmable : DeviceState := ⟨[("relay_state", 1)], []⟩

/- Helper lemmas shared by the claim theorems. -/

/-- Valid arguments: set_dimmer_transition issues exactly the ramp
call. -/
theorem set_dimmer_transition_valid (s : DeviceState) (bi ti : Int)
    (hb0 : 0 ≤ bi) (hb1 : bi ≤ 100) (ht : 0 < ti) :
    set_dimmer_transition s (.int bi) (.int ti) =
      (.ok (), pushCall s (.remote ⟨DIMMER_SERVICE, "set_dimmer_transition",
        [("brightness", bi), ("duration", ti)]⟩)) := by
  simp only [set_dimmer_transition]
  split_ifs <;> first | rfl | omega

/-- set_dimmer_transition leaves the sys_info cache untouched. -/
theorem set_dimmer_transition_sysInfo (s : DeviceState) (b t : PyVal) :
    (set_dimmer_transition s b t).2.sysInfo = s.sysInfo := by
  rcases b with bi | q
  · rcases t with ti | q'
    · simp only [set_dimmer_transition]
      split_ifs <;> rfl
    · simp only [set_dimmer_transition]
      split_ifs <;> rfl
  · rfl

/-- When set_dimmer_transition fails the validation, the state is
returned unchanged (no call was pushed). -/
theorem set_dimmer_transition_error_state (s : DeviceState) (b t : PyVal) :
    (set_dimmer_transition s b t).1 = .error .invalidArgument →
    (set_dimmer_transition s b t).2 = s := by
  rcases b with bi | q
  · rcases t with ti | q'
    · simp only [set_dimmer_transition]
      split_ifs <;> simp
    · simp only [set_dimmer_transition]
      split_ifs <;> simp
  · intro _
    rfl

/-- When set_brightness fails its validation, the state is returned
unchanged (no call was pushed). -/
theorem set_brightness_error_state (s : DeviceState) (b : PyVal) (t : Option PyVal) :
    (set_brightness s b t).1 = .error .invalidArgument →
    (set_brightness s b t).2 = s := by
  rcases b with bi | q <;> rcases t with _ | tv <;>
    simp only [set_brightness] <;> split_ifs <;>
    first
      | simp
      | exact set_dimmer_transition_error_state s (.int bi) tv

/-- set_brightness leaves the sys_info cache untouched. -/
theorem set_brightness_sysInfo (s : DeviceState) (b : PyVal) (t : Option PyVal) :
    (set_brightness s b t).2.sysInfo = s.sysInfo := by
  rcases b with bi | q <;> rcases t with _ | tv <;>
    simp only [set_brightness] <;> split_ifs <;>
    first
      | rfl
      | exact set_dimmer_transition_sysInfo s (.int bi) tv

/-- turn_off leaves the sys_info cache untouched. -/
theorem turn_off_sysInfo (s : DeviceState) (t : Option PyVal) :
    (turn_off s t).2.sysInfo = s.sysInfo := by
  rcases t with _ | tv
  · rfl
  · simp only [turn_off]
    split_ifs
    · exact set_dimmer_transition_sysInfo s (.int 0) tv
    · rfl

/-- turn_on leaves the sys_info cache untouched. -/
theorem turn_on_sysInfo (s : DeviceState) (t : Option PyVal) :
    (turn_on s t).2.sysInfo = s.sysInfo := by
  rcases t with _ | tv
  · rfl
  · simp only [turn_on]
    split_ifs
    · cases hb : brightness s.sysInfo with
      | error e => simp [hb]
      | ok bv =>
        simp only [hb]
        exact set_dimmer_transition_sysInfo s (.int bv) tv
    · rfl

/-- state_information leaves the sys_info cache untouched. -/
theorem state_information_sysInfo (gen : List (String × Int)) (s : DeviceState) :
    (state_information gen s).2.sysInfo = s.sysInfo := by
  simp only [state_information]
  cases hb : brightness s.sysInfo <;> simp [hb]

/-- turn_off with a positive integer transition issues exactly the
ramp-to-zero call. -/
theorem turn_off_transition_call (s : DeviceState) (ti : Int) (h : 0 < ti) :
    turn_off s (some (.int ti)) =
      (.ok (), pushCall s (.remote ⟨DIMMER_SERVICE, "set_dimmer_transition",
        [("brightness", 0), ("duration", ti)]⟩)) := by
  have htv : pyTruthy (.int ti) = true := by
    simp only [pyTruthy, decide_eq_true_eq]
    omega
  simp only [turn_off, htv, if_true]
  exact set_dimmer_transition_valid s 0 ti (by omega) (by omega) h

/-- On a device whose sys_info lacks the brightness key, set_brightness
raises notDimmable before touching the state, whatever the arguments. -/
theorem set_brightness_not_dimmable (s : DeviceState)
    (h : is_dimmable s.sysInfo = false) (b : PyVal) (t : Option PyVal) :
    set_brightness s b t = (.error .notDimmable, s) := by
  simp [set_brightness, h]

/- Claim theorems. -/

/-- C1: the claim says set_brightness(b, transition=t) succeeds for every
integer b in 0..100 and positive integer t, in particular for b = 0
(ramp to off). The code rejects b = 0: on a dimmable device (sys_info
brightness = 70), set_brightness(0, transition=1000) raises ValueError
and issues no remote call, although set_dimmer_transition itself
accepts brightness 0 and the repository test
test_set_brightness_transition_to_off expects the ramp call to be
issued. -/
theorem C1_set_brightness_rejects_zero_ramp :
    set_brightness sampleDimmable (.int 0) (some (.int 1000)) =
      (.error .invalidArgument, sampleDimmable) ∧
    set_dimmer_transition sampleDimmable (.int 0) (.int 1000) =
      (.ok (), pushCall sampleDimmable (.remote ⟨DIMMER_SERVICE,
        "set_dimmer_transition", [("brightness", 0), ("duration", 1000)]⟩)) :=
  ⟨rfl, rfl⟩

/-- C2 counterexample: the claim includes b = 0, but on a dimmable
device set_brightness(0) without transition raises ValueError (the
range check is 0 < b <= 100) and issues no call. -/
theorem C2_counterexample_zero_rejected :
    set_brightness sampleDimmable (.int 0) none =
      (.error .invalidArgument, sampleDimmable) := rfl

/-- C2 (amended): for every integer b in 1..100, on a dimmable device
set_brightness(b) without transition issues exactly one set_brightness
remote call with param brightness = b, and a brightness() read against
a cache holding brightness = b returns b. -/
theorem C2_set_brightness_no_transition (s : DeviceState) (b : Int)
    (h1 : 1 ≤ b) (h2 : b ≤ 100) (hdim : is_dimmable s.sysInfo = true)
    (si : SysInfo) (hsi : lookupInfo si "brightness" = some b) :
    set_brightness s (.int b) none =
      (.ok (), pushCall s (.remote ⟨DIMMER_SERVICE, "set_brightness",
        [("brightness", b)]⟩)) ∧
    brightness si = .ok b := by
  constructor
  · have hb1 : 0 < b := by omega
    simp [set_brightness, hdim, hb1, h2]
  · simp [brightness, hsi]

/-- C2 witness: b = 50 on the sample dimmable device. -/
theorem C2_witness :
    (1 : Int) ≤ 50 ∧ (50 : Int) ≤ 100 ∧
    is_dimmable sampleDimmable.sysInfo = true ∧
    lookupInfo [("brightness", 50)] "brightness" = some 50 ∧
    (set_brightness sampleDimmable (.int 50) none =
      (.ok (), pushCall sampleDimmable (.remote ⟨DIMMER_SERVICE,
        "set_brightness", [("brightness", 50)]⟩)) ∧
     brightness [("brightness", 50)] = .ok 50) :=
  ⟨by decide, by decide, by decide, by decide,
   C2_set_brightness_no_transition sampleDimmable 50 (by decide) (by decide)
     (by decide) [("brightness", 50)] (by decide)⟩

/-- C3: the claim says set_brightness(1, transition=t) raises for every
t in the set containing -1, 0 and one half. It does raise for -1 and
one half with no call issued, but for t = 0 the code treats the
transition as absent (Python falsiness), issues the plain
set_brightness remote call and succeeds, contradicting the repository
test test_set_brightness_invalid. -/
theorem C3_transition_zero_not_rejected :
    set_brightness sampleDimmable (.int 1) (some (.int 0)) =
      (.ok (), pushCall sampleDimmable (.remote ⟨DIMMER_SERVICE,
        "set_brightness", [("brightness", 1)]⟩)) ∧
    set_brightness sampleDimmable (.int 1) (some (.int (-1))) =
      (.error .invalidArgument, sampleDimmable) ∧
    set_brightness sampleDimmable (.int 1) (some (.float (mkRat 1 2))) =
      (.error .invalidArgument, sampleDimmable) :=
  ⟨rfl, rfl, rfl⟩

/-- C4: when the cached sys_info lacks the brightness key, is_dimmable
is false, brightness raises notDimmable, and set_brightness raises
notDimmable for any arguments with the state unchanged (so no remote
call was issued). -/
theorem C4_missing_brightness_key (s : DeviceState)
    (h : lookupInfo s.sysInfo "brightness" = none)
    (b : PyVal) (t : Option PyVal) :
    is_dimmable s.sysInfo = false ∧
    brightness s.sysInfo = .error .notDimmable ∧
    set_brightness s b t = (.error .notDimmable, s) := by
  have hd : is_dimmable s.sysInfo = false := by
    simp [is_dimmable, h]
  exact ⟨hd, by simp [brightness, h], set_brightness_not_dimmable s hd b t⟩

/-- C4 witness: the sample non-dimmable device, arguments 50 and no
transition. -/
theorem C4_witness :
    lookupInfo sampleNonDimmable.sysInfo "brightness" = none ∧
    (is_dimmable sampleNonDimmable.sysInfo = false ∧
     brightness sampleNonDimmable.sysInfo = .error .notDimmable ∧
     set_brightness sampleNonDimmable (.int 50) none =
       (.error .notDimmable, sampleNonDimmable)) :=
  ⟨by decide, C4_missing_brightness_key sampleNonDimmable (by decide)
    (.int 50) none⟩

/-- C5: set_dimmer_transition issues exactly one ramp call when
brightness is an integer in 0..100 and transition a positive integer,
and fails with invalidArgument (state unchanged) in every other
case. -/
theorem C5_set_dimmer_transition_spec (s : DeviceState) (b t : PyVal) :
    set_dimmer_transition s b t =
      match b, t with
      | .int bi, .int ti =>
        if 0 ≤ bi ∧ bi ≤ 100 ∧ 0 < ti then
          (.ok (), pushCall s (.remote ⟨DIMMER_SERVICE,
            "set_dimmer_transition", [("brightness", bi), ("duration", ti)]⟩))
        else (.error .invalidArgument, s)
      | _, _ => (.error .invalidArgument, s) := by
  rcases b with bi | q
  · rcases t with ti | q'
    · simp only [set_dimmer_transition]
      split_ifs <;> first | rfl | omega
    · simp only [set_dimmer_transition]
      split_ifs <;> rfl
  · rfl

/-- C6: whenever set_brightness or set_dimmer_transition raises the
invalidArgument validation error, the call log is unchanged: no remote
call was dispatched by that invocation. -/
theorem C6_validation_is_local (s : DeviceState) (b : PyVal)
    (t : Option PyVal) (b2 t2 : PyVal) :
    ((set_brightness s b t).1 = .error .invalidArgument →
      (set_brightness s b t).2.callLog = s.callLog) ∧
    ((set_dimmer_transition s b2 t2).1 = .error .invalidArgument →
      (set_dimmer_transition s b2 t2).2.callLog = s.callLog) := by
  constructor
  · intro h
    rw [set_brightness_error_state s b t h]
  · intro h
    rw [set_dimmer_transition_error_state s b2 t2 h]

/-- C6 witness: a float brightness for set_brightness and a float
transition for set_dimmer_transition, on the sample dimmable device. -/
theorem C6_witness :
    ((set_brightness sampleDimmable (.float (mkRat 1 2)) none).1 =
        .error .invalidArgument ∧
     (set_brightness sampleDimmable (.float (mkRat 1 2)) none).2.callLog =
        sampleDimmable.callLog) ∧
    ((set_dimmer_transition sampleDimmable (.int 50) (.float (mkRat 1 2))).1 =
        .error .invalidArgument ∧
     (set_dimmer_transition sampleDimmable (.int 50) (.float (mkRat 1 2))).2.callLog =
        sampleDimmable.callLog) :=
  ⟨⟨rfl, (C6_validation_is_local sampleDimmable (.float (mkRat 1 2)) none
      (.int 50) (.float (mkRat 1 2))).1 rfl⟩,
   ⟨rfl, (C6_validation_is_local sampleDimmable (.float (mkRat 1 2)) none
      (.int 50) (.float (mkRat 1 2))).2 rfl⟩⟩

/-- C7: turn_off with a positive integer transition issues exactly the
set_dimmer_transition remote call with brightness 0 and duration t;
turn_off without transition issues no dimmer-service call and
delegates to the generic collaborator turn-off. -/
theorem C7_turn_off_dispatch (s : DeviceState) (ti : Int) (h : 0 < ti) :
    turn_off s (some (.int ti)) =
      (.ok (), pushCall s (.remote ⟨DIMMER_SERVICE, "set_dimmer_transition",
        [("brightness", 0), ("duration", ti)]⟩)) ∧
    turn_off s none = (.ok (), pushCall s .genericTurnOff) :=
  ⟨turn_off_transition_call s ti h, rfl⟩

/-- C7 witness: transition 1000 on the sample dimmable device. -/
theorem C7_witness :
    (0 : Int) < 1000 ∧
    (turn_off sampleDimmable (some (.int 1000)) =
      (.ok (), pushCall sampleDimmable (.remote ⟨DIMMER_SERVICE,
        "set_dimmer_transition", [("brightness", 0), ("duration", 1000)]⟩)) ∧
     turn_off sampleDimmable none =
      (.ok (), pushCall sampleDimmable .genericTurnOff)) :=
  ⟨by decide, C7_turn_off_dispatch sampleDimmable 1000 (by decide)⟩

/-- C8: no operation of the component mutates the cached sys_info
mapping: for every state, every argument and every generic state
mapping supplied by the collaborator, the sys_info observed after the
call equals the one observed before it. -/
theorem C8_sys_info_never_mutated (s : DeviceState)
    (gen : List (String × Int)) (b b2 t2 : PyVal) (t : Option PyVal) :
    (brightnessS s).2.sysInfo = s.sysInfo ∧
    (is_dimmableS s).2.sysInfo = s.sysInfo ∧
    (set_brightness s b t).2.sysInfo = s.sysInfo ∧
    (set_dimmer_transition s b2 t2).2.sysInfo = s.sysInfo ∧
    (turn_on s t).2.sysInfo = s.sysInfo ∧
    (turn_off s t).2.sysInfo = s.sysInfo ∧
    (state_information gen s).2.sysInfo = s.sysInfo :=
  ⟨rfl, rfl, set_brightness_sysInfo s b t,
   set_dimmer_transition_sysInfo s b2 t2, turn_on_sysInfo s t,
   turn_off_sysInfo s t, state_information_sysInfo gen s⟩

/-- C9: turn_off with a positive integer transition does not apply the
dimmable capability gate: on a device whose sys_info lacks the
brightness key it still issues the ramp-to-zero call and raises no
error, while set_brightness on the same device raises notDimmable for
the given arguments. -/
theorem C9_turn_off_skips_dimmable_gate (s : DeviceState) (ti : Int)
    (hpos : 0 < ti) (hno : lookupInfo s.sysInfo "brightness" = none)
    (b : PyVal) (t : Option PyVal) :
    turn_off s (some (.int ti)) =
      (.ok (), pushCall s (.remote ⟨DIMMER_SERVICE, "set_dimmer_transition",
        [("brightness", 0), ("duration", ti)]⟩)) ∧
    set_brightness s b t = (.error .notDimmable, s) := by
  refine ⟨turn_off_transition_call s ti hpos, ?_⟩
  have hd : is_dimmable s.sysInfo = false := by
    simp [is_dimmable, hno]
  exact set_brightness_not_dimmable s hd b t

/-- C9 witness: transition 500 on the sample non-dimmable device. -/
theorem C9_witness :
    (0 : Int) < 500 ∧
    lookupInfo sampleNonDimmable.sysInfo "brightness" = none ∧
    (turn_off sampleNonDimmable (some (.int 500)) =
      (.ok (), pushCall sampleNonDimmable (.remote ⟨DIMMER_SERVICE,
        "set_dimmer_transition", [("brightness", 0), ("duration", 500)]⟩)) ∧
     set_brightness sampleNonDimmable (.int 10) none =
      (.error .notDimmable, sampleNonDimmable)) :=
  ⟨by decide, by decide,
   C9_turn_off_skips_dimmable_gate sampleNonDimmable 500 (by decide)
     (by decide) (.int 10) none⟩

/-- C10: a zero transition is treated as absent: turn_on(transition=0)
and turn_off(transition=0) raise no error, issue no dimmer-service
call, and delegate to the generic collaborator on / off. -/
theorem C10_zero_transition_delegates (s : DeviceState) :
    turn_on s (some (.int 0)) = (.ok (), pushCall s .genericTurnOn) ∧
    turn_off s (some (.int 0)) = (.ok (), pushCall s .genericTurnOff) :=
  ⟨rfl, rfl⟩

end SmartDimmer
